import Mathlib

/-!
Verification of the Energy-Efficient Cloud Resource Optimizer core against
its specification. The Python sources are shallowly embedded: usage values,
costs and power figures (Python floats) are modelled as exact rationals, and
the presentational `round(x, 2)` applied to the final summary fields is
elided — all stated quantities are the exact pre-rounding values. Strings
interpolated into human-readable `reason` messages are not modelled; only
the `action` component of the allocator's result is.
-/

/-! ## Allocation policy (src/optimizer/resource_allocator.py) -/

/-- The three discrete scaling actions the allocator can return. -/
inductive AllocAction where
  | SCALE_UP
  | SCALE_DOWN
  | MAINTAIN
deriving DecidableEq, Repr

/-- Embedding of `allocate_resources(current_usage, predicted_usage,
scale_up_threshold, scale_down_threshold)`: `SCALE_UP` when the prediction
exceeds the scale-up threshold, else `SCALE_DOWN` when both the prediction and
the current usage are below the scale-down threshold, else `MAINTAIN`.
Only the `action` field of the returned dict is modelled. -/
def allocate_resources (current_usage predicted_usage : ℚ)
    (scale_up_threshold scale_down_threshold : ℚ) : AllocAction :=
  if predicted_usage > scale_up_threshold then
    AllocAction.SCALE_UP
  else if predicted_usage < scale_down_threshold ∧ current_usage < scale_down_threshold then
    AllocAction.SCALE_DOWN
  else
    AllocAction.MAINTAIN

/-- `allocate_resources` at its Python default thresholds (75.0 and 30.0),
as the simulator invokes it. -/
def allocate_default (current_usage predicted_usage : ℚ) : AllocAction :=
  allocate_resources current_usage predicted_usage 75 30

/-! ## Simulator (src/optimizer/simulator.py) -/

/-- Cost for one vCPU core per hour (`COST_CPU_PER_HOUR = 0.05`). -/
def COST_CPU_PER_HOUR : ℚ := 5 / 100

/-- Cost for one GPU per hour (`COST_GPU_PER_HOUR = 0.50`). -/
def COST_GPU_PER_HOUR : ℚ := 50 / 100

/-- Watts per 1% of CPU utilization (`POWER_CPU_WATT_PER_PERCENT = 1.5`). -/
def POWER_CPU_WATT_PER_PERCENT : ℚ := 3 / 2

/-- Watts per 1% of GPU utilization (`POWER_GPU_WATT_PER_PERCENT = 3.0`). -/
def POWER_GPU_WATT_PER_PERCENT : ℚ := 3

/-- One interval of the simulator's input: the row `i` of `df_metrics`
(columns `cpu_usage`, `gpu_usage`) together with `predictions['cpu'][i]`.
The `predictions['gpu']` entry is never read by `run_simulation`. -/
structure SimRow where
  cpu_usage : ℚ
  gpu_usage : ℚ
  pred_cpu : ℚ
deriving DecidableEq, Repr

/-- The loop body's `original_cost_interval = COST_CPU_PER_HOUR +
COST_GPU_PER_HOUR`: a constant, independent of the row (the code assumes the
original plan is always provisioned at 100% capacity). -/
def original_cost_interval : ℚ :=
  COST_CPU_PER_HOUR + COST_GPU_PER_HOUR

/-- The loop body's `original_power_interval = POWER_CPU_WATT_PER_PERCENT *
current_cpu + POWER_GPU_WATT_PER_PERCENT * current_gpu`. -/
def original_power_interval (r : SimRow) : ℚ :=
  POWER_CPU_WATT_PER_PERCENT * r.cpu_usage + POWER_GPU_WATT_PER_PERCENT * r.gpu_usage

/-- The loop body's `cpu_action = allocation_logic(current_usage=current_cpu,
predicted_usage=pred_cpu)['action']`. -/
def cpu_action (alloc : ℚ → ℚ → AllocAction) (r : SimRow) : AllocAction :=
  alloc r.cpu_usage r.pred_cpu

/-- The loop body's optimized cost: half the original on `SCALE_DOWN`, the
original otherwise (`MAINTAIN` or `SCALE_UP` stay on the same instance). -/
def optimized_cost_interval (alloc : ℚ → ℚ → AllocAction) (r : SimRow) : ℚ :=
  if cpu_action alloc r = AllocAction.SCALE_DOWN then
    original_cost_interval * (1 / 2)
  else
    original_cost_interval

/-- The loop body's optimized power: 0.6 times the original on `SCALE_DOWN`,
the original otherwise. -/
def optimized_power_interval (alloc : ℚ → ℚ → AllocAction) (r : SimRow) : ℚ :=
  if cpu_action alloc r = AllocAction.SCALE_DOWN then
    original_power_interval r * (6 / 10)
  else
    original_power_interval r

/-- The four accumulators of `run_simulation`'s loop. -/
structure Totals where
  total_original_cost : ℚ
  total_optimized_cost : ℚ
  total_original_kwh : ℚ
  total_optimized_kwh : ℚ
deriving Repr

/-- One iteration of `run_simulation`'s loop over interval `r` (watts are
converted to kWh by dividing by 1000, as in the code). -/
def simStep (alloc : ℚ → ℚ → AllocAction) (t : Totals) (r : SimRow) : Totals :=
  { total_original_cost := t.total_original_cost + original_cost_interval
    total_optimized_cost := t.total_optimized_cost + optimized_cost_interval alloc r
    total_original_kwh := t.total_original_kwh + original_power_interval r / 1000
    total_optimized_kwh := t.total_optimized_kwh + optimized_power_interval alloc r / 1000 }

/-- The loop of `run_simulation`, starting from all-zero accumulators. -/
def runTotals (alloc : ℚ → ℚ → AllocAction) (rows : List SimRow) : Totals :=
  rows.foldl (simStep alloc) ⟨0, 0, 0, 0⟩

/-- The summary dict `run_simulation` returns. The Python code rounds the five
rational fields to two decimals for presentation; the exact pre-rounding
values are kept here. -/
structure SimSummary where
  total_intervals : ℕ
  original_cost : ℚ
  optimized_cost : ℚ
  cost_savings : ℚ
  cost_savings_percent : ℚ
  energy_saved_kwh : ℚ
deriving Repr

/-- Embedding of `run_simulation(df_metrics, predictions, allocation_logic)`:
run the loop, then summarize, guarding the percentage against a zero total
original cost exactly as the code's conditional expression does. -/
def run_simulation (alloc : ℚ → ℚ → AllocAction) (rows : List SimRow) : SimSummary :=
  let t := runTotals alloc rows
  let cost_saved := t.total_original_cost - t.total_optimized_cost
  let energy_saved := t.total_original_kwh - t.total_optimized_kwh
  { total_intervals := rows.length
    original_cost := t.total_original_cost
    optimized_cost := t.total_optimized_cost
    cost_savings := cost_saved
    cost_savings_percent :=
      if t.total_original_cost > 0 then cost_saved / t.total_original_cost * 100 else 0
    energy_saved_kwh := energy_saved }

/-! ## Spec-side formulas, for comparison with the code

The specification (§4.5) describes a usage-proportional cost model and a
target-based optimized usage. The definitions below transcribe those
formulas — they follow the spec's words, not the source — so that the code's
behaviour can be compared against them. -/

/-- The spec's formula `original_cost = sum over resources of
(observed_usage/100 × cost_rate_for_resource)`, with the code's cost rates. -/
def spec_original_cost_interval (r : SimRow) : ℚ :=
  r.cpu_usage / 100 * COST_CPU_PER_HOUR + r.gpu_usage / 100 * COST_GPU_PER_HOUR

/-- The spec's `optimized_usage`: the scale-down target on `SCALE_DOWN`, the
scale-up target on `SCALE_UP`, the observed value unchanged on `MAINTAIN`. -/
def spec_optimized_usage (a : AllocAction) (observed target_down target_up : ℚ) : ℚ :=
  match a with
  | AllocAction.SCALE_DOWN => target_down
  | AllocAction.SCALE_UP => target_up
  | AllocAction.MAINTAIN => observed

/-- The spec's `optimized_cost`: the usage-proportional cost formula applied
to `optimized_usage` (the code's single per-interval action drives both
resources). -/
def spec_optimized_cost_interval (target_down target_up : ℚ)
    (alloc : ℚ → ℚ → AllocAction) (r : SimRow) : ℚ :=
  spec_optimized_usage (cpu_action alloc r) r.cpu_usage target_down target_up / 100 *
      COST_CPU_PER_HOUR +
    spec_optimized_usage (cpu_action alloc r) r.gpu_usage target_down target_up / 100 *
      COST_GPU_PER_HOUR

/-- The spec's `energy_saved_kwh` for one interval: `sum over resources of
max(0, observed_usage − optimized_usage) × energy_factor_for_resource`, with
the code's per-resource energy factors converted to kWh per percent. -/
def spec_energy_saved_interval (target_down target_up : ℚ)
    (alloc : ℚ → ℚ → AllocAction) (r : SimRow) : ℚ :=
  max 0 (r.cpu_usage - spec_optimized_usage (cpu_action alloc r) r.cpu_usage
      target_down target_up) * (POWER_CPU_WATT_PER_PERCENT / 1000) +
    max 0 (r.gpu_usage - spec_optimized_usage (cpu_action alloc r) r.gpu_usage
      target_down target_up) * (POWER_GPU_WATT_PER_PERCENT / 1000)

/-! ## Scenario A (spec §8) -/

/-- The six-sample CPU series of the spec's end-to-end scenario A. -/
def scenarioA_cpu_usage : List ℚ := [25, 22, 28, 70, 80, 25]

/-- Scenario A's action sequence: the current-aware allocator with thresholds
75/30, with each predicted value equal to the observed value. -/
def scenarioA_actions : List AllocAction :=
  scenarioA_cpu_usage.map (fun u => allocate_resources u u 75 30)

/-! ## Theorems -/

/-- C1: with `down ≤ up`, `allocate_resources` returns `SCALE_UP` exactly when
the prediction exceeds `up`; `SCALE_DOWN` when both prediction and current
usage are below `down`; and `MAINTAIN` in every other case — in particular a
prediction above `up` scales up regardless of current usage, and a prediction
below `down` with current usage at or above `down` maintains. -/
theorem allocate_resources_cases (c p up down : ℚ) (h : down ≤ up) :
    (p > up → allocate_resources c p up down = AllocAction.SCALE_UP) ∧
    (p < down → c < down → allocate_resources c p up down = AllocAction.SCALE_DOWN) ∧
    (¬ p > up → ¬ (p < down ∧ c < down) → allocate_resources c p up down = AllocAction.MAINTAIN) ∧
    (p < down → down ≤ c → allocate_resources c p up down = AllocAction.MAINTAIN) := by
  refine ⟨fun h1 => ?_, fun hp hc => ?_, fun h1 h2 => ?_, fun hp hc => ?_⟩
  · simp [allocate_resources, if_pos h1]
  · have hnu : ¬ p > up := by
      simp only [gt_iff_lt, not_lt]
      linarith
    rw [allocate_resources, if_neg hnu, if_pos ⟨hp, hc⟩]
  · rw [allocate_resources, if_neg h1, if_neg h2]
  · have hnu : ¬ p > up := by
      simp only [gt_iff_lt, not_lt]
      linarith
    have hnd : ¬ (p < down ∧ c < down) := by
      rintro ⟨-, hcd⟩
      exact absurd hcd (not_lt.mpr hc)
    rw [allocate_resources, if_neg hnu, if_neg hnd]

/-- Witness for C1: at current 50, predicted 80, thresholds 75/30, the
hypotheses hold and the allocator scales up. -/
theorem allocate_resources_cases_witness :
    allocate_resources 50 80 75 30 = AllocAction.SCALE_UP :=
  (allocate_resources_cases 50 80 75 30 (by norm_num)).1 (by norm_num)

/-- C4 counterexample: on scenario A's series with predicted = observed, the
allocator does NOT produce the claimed all-MAINTAIN-but-one sequence — the
three samples at 25, 22, 28 are below the scale-down threshold 30 on both
signals, so they yield `SCALE_DOWN`. -/
theorem scenarioA_not_claimed :
    scenarioA_actions ≠
      [AllocAction.MAINTAIN, AllocAction.MAINTAIN, AllocAction.MAINTAIN,
        AllocAction.MAINTAIN, AllocAction.SCALE_UP, AllocAction.MAINTAIN] := by
  decide

/-- C4 amended: the action sequence scenario A actually produces is
`[SCALE_DOWN, SCALE_DOWN, SCALE_DOWN, MAINTAIN, SCALE_UP, SCALE_DOWN]`. -/
theorem scenarioA_actions_eq :
    scenarioA_actions =
      [AllocAction.SCALE_DOWN, AllocAction.SCALE_DOWN, AllocAction.SCALE_DOWN,
        AllocAction.MAINTAIN, AllocAction.SCALE_UP, AllocAction.SCALE_DOWN] := by
  decide

/-! ## Summation lemmas for the simulator loop -/

/-- A sum of pointwise differences is the difference of the sums. -/
theorem sum_map_sub {α : Type} (l : List α) (f g : α → ℚ) :
    (l.map fun x => f x - g x).sum = (l.map f).sum - (l.map g).sum := by
  induction l with
  | nil => simp
  | cons a l ih =>
    simp only [List.map_cons, List.sum_cons, ih]
    ring

/-- After folding the loop body over the rows, each accumulator equals its
initial value plus the sum of the corresponding per-interval contributions. -/
theorem foldl_simStep_fields (alloc : ℚ → ℚ → AllocAction) (rows : List SimRow) (t : Totals) :
    (rows.foldl (simStep alloc) t).total_original_cost
        = t.total_original_cost + (rows.map fun _ => original_cost_interval).sum ∧
      (rows.foldl (simStep alloc) t).total_optimized_cost
        = t.total_optimized_cost + (rows.map fun r => optimized_cost_interval alloc r).sum ∧
      (rows.foldl (simStep alloc) t).total_original_kwh
        = t.total_original_kwh + (rows.map fun r => original_power_interval r / 1000).sum ∧
      (rows.foldl (simStep alloc) t).total_optimized_kwh
        = t.total_optimized_kwh + (rows.map fun r => optimized_power_interval alloc r / 1000).sum := by
  induction rows generalizing t with
  | nil => simp
  | cons r rs ih =>
    have h := ih (simStep alloc t r)
    refine ⟨?_, ?_, ?_, ?_⟩
    · rw [List.foldl_cons, h.1]
      simp only [simStep, List.map_cons, List.sum_cons]
      ring
    · rw [List.foldl_cons, h.2.1]
      simp only [simStep, List.map_cons, List.sum_cons]
      ring
    · rw [List.foldl_cons, h.2.2.1]
      simp only [simStep, List.map_cons, List.sum_cons]
      ring
    · rw [List.foldl_cons, h.2.2.2]
      simp only [simStep, List.map_cons, List.sum_cons]
      ring

/-- C2 counterexample: for the single interval with observed cpu 25%, gpu 10%
(prediction 20), the simulator's original cost is the constant 0.55, not the
0.0625 the spec's usage-proportional formula yields with the code's own cost
rates. -/
theorem original_cost_not_usage_proportional :
    (run_simulation allocate_default [⟨25, 10, 20⟩]).original_cost ≠
      spec_original_cost_interval ⟨25, 10, 20⟩ := by
  have hO : (run_simulation allocate_default [(⟨25, 10, 20⟩ : SimRow)]).original_cost
      = (0 : ℚ) + original_cost_interval := rfl
  rw [hO]
  norm_num [original_cost_interval, spec_original_cost_interval,
    COST_CPU_PER_HOUR, COST_GPU_PER_HOUR]

/-- C2 amended: the baseline cost is a constant per-interval charge — every
interval contributes `COST_CPU_PER_HOUR + COST_GPU_PER_HOUR` regardless of its
observed usage, so the summary's original cost is that constant times the
number of intervals. -/
theorem original_cost_constant_per_interval (alloc : ℚ → ℚ → AllocAction)
    (rows : List SimRow) :
    (run_simulation alloc rows).original_cost
      = (rows.length : ℚ) * (COST_CPU_PER_HOUR + COST_GPU_PER_HOUR) := by
  have h := (foldl_simStep_fields alloc rows ⟨0, 0, 0, 0⟩).1
  have hO : (run_simulation alloc rows).original_cost
      = (runTotals alloc rows).total_original_cost := rfl
  rw [hO, runTotals, h]
  simp only [zero_add, original_cost_interval]
  rw [List.map_const']
  simp only [List.sum_replicate, nsmul_eq_mul]

/-- C3 counterexample: the interval with cpu 25%, gpu 10% and prediction 50 is
a MAINTAIN interval, where by the spec the optimized usage is the observed
usage and the optimized cost its usage-proportional value 0.0625; the code
instead charges the constant interval cost 0.55. No choice of scale-down /
scale-up targets reconciles the two, since the targets are irrelevant under
MAINTAIN. -/
theorem optimized_cost_not_target_based :
    ¬ ∃ target_down target_up : ℚ,
        (run_simulation allocate_default [⟨25, 10, 50⟩]).optimized_cost =
          spec_optimized_cost_interval target_down target_up allocate_default ⟨25, 10, 50⟩ := by
  rintro ⟨td, tu, h⟩
  have hL : (run_simulation allocate_default [(⟨25, 10, 50⟩ : SimRow)]).optimized_cost
      = (0 : ℚ) + optimized_cost_interval allocate_default ⟨25, 10, 50⟩ := rfl
  have hact : cpu_action allocate_default ⟨25, 10, 50⟩ = AllocAction.MAINTAIN := by decide
  rw [hL] at h
  simp only [optimized_cost_interval, hact] at h
  rw [if_neg (by decide : ¬ (AllocAction.MAINTAIN = AllocAction.SCALE_DOWN))] at h
  norm_num [spec_optimized_cost_interval, hact, spec_optimized_usage,
    original_cost_interval, COST_CPU_PER_HOUR, COST_GPU_PER_HOUR] at h

/-- C3 amended: the simulator has no per-resource optimized usage. Per
interval, the optimized cost is half the (constant) original interval cost
when the action is SCALE_DOWN and equal to it otherwise, and the optimized
power is 0.6 times the original interval power when the action is SCALE_DOWN
and equal to it otherwise; the optimized totals are the sums of these values. -/
theorem optimized_totals_by_action (alloc : ℚ → ℚ → AllocAction) (rows : List SimRow) :
    (run_simulation alloc rows).optimized_cost =
        (rows.map fun r =>
          if cpu_action alloc r = AllocAction.SCALE_DOWN then
            original_cost_interval * (1 / 2)
          else original_cost_interval).sum ∧
      (runTotals alloc rows).total_optimized_kwh =
        (rows.map fun r =>
          if cpu_action alloc r = AllocAction.SCALE_DOWN then
            original_power_interval r * (6 / 10) / 1000
          else original_power_interval r / 1000).sum := by
  have h := foldl_simStep_fields alloc rows ⟨0, 0, 0, 0⟩
  constructor
  · have hO : (run_simulation alloc rows).optimized_cost
        = (runTotals alloc rows).total_optimized_cost := rfl
    rw [hO, runTotals, h.2.1]
    simp only [zero_add, optimized_cost_interval]
  · rw [runTotals, h.2.2.2]
    simp only [zero_add]
    have hfun : (fun r => optimized_power_interval alloc r / 1000)
        = fun r : SimRow =>
            if cpu_action alloc r = AllocAction.SCALE_DOWN then
              original_power_interval r * (6 / 10) / 1000
            else original_power_interval r / 1000 := by
      funext r
      rw [optimized_power_interval.eq_def]
      split_ifs <;> rfl
    rw [hfun]

/-- C8: the summary's (pre-rounding) cost-savings percentage equals
100 × savings / original total whenever the original total is positive, and is
0 when the original total is 0 — the guard avoids the division entirely. -/
theorem cost_savings_percent_spec (alloc : ℚ → ℚ → AllocAction) (rows : List SimRow) :
    ((run_simulation alloc rows).original_cost > 0 →
        (run_simulation alloc rows).cost_savings_percent =
          100 * (run_simulation alloc rows).cost_savings /
            (run_simulation alloc rows).original_cost) ∧
      ((run_simulation alloc rows).original_cost = 0 →
        (run_simulation alloc rows).cost_savings_percent = 0) := by
  have hP : (run_simulation alloc rows).cost_savings_percent =
      if (runTotals alloc rows).total_original_cost > 0 then
        (run_simulation alloc rows).cost_savings /
          (runTotals alloc rows).total_original_cost * 100
      else 0 := rfl
  have hO : (run_simulation alloc rows).original_cost
      = (runTotals alloc rows).total_original_cost := rfl
  constructor
  · intro h
    have h' : (runTotals alloc rows).total_original_cost > 0 := hO ▸ h
    rw [hP, if_pos h', hO]
    ring
  · intro h
    have h' : (runTotals alloc rows).total_original_cost = 0 := hO ▸ h
    rw [hP, if_neg]
    rw [h']
    exact lt_irrefl 0

/-- C9 counterexample: the code's energy accounting is 40% of the interval's
original energy on SCALE_DOWN, which no fixed target-based usage-delta formula
reproduces. On the SCALE_DOWN interval (cpu 20%, gpu 20%) the code saves
0.036 kWh, which with the code's per-resource energy factors forces a
scale-down target of 12; but on the SCALE_DOWN interval (cpu 10%, gpu 10%)
the target 12 gives a clamped saving of 0 while the code saves 0.018 kWh. -/
theorem energy_formula_no_targets :
    ¬ ∃ target_down target_up : ℚ,
        ((run_simulation allocate_default [⟨20, 20, 0⟩]).energy_saved_kwh =
            spec_energy_saved_interval target_down target_up allocate_default ⟨20, 20, 0⟩ ∧
          (run_simulation allocate_default [⟨10, 10, 0⟩]).energy_saved_kwh =
            spec_energy_saved_interval target_down target_up allocate_default ⟨10, 10, 0⟩) := by
  rintro ⟨td, tu, h1, h2⟩
  have ha1 : cpu_action allocate_default ⟨20, 20, 0⟩ = AllocAction.SCALE_DOWN := by decide
  have ha2 : cpu_action allocate_default ⟨10, 10, 0⟩ = AllocAction.SCALE_DOWN := by decide
  have hL1 : (run_simulation allocate_default [(⟨20, 20, 0⟩ : SimRow)]).energy_saved_kwh
      = ((0 : ℚ) + original_power_interval ⟨20, 20, 0⟩ / 1000) -
          ((0 : ℚ) + optimized_power_interval allocate_default ⟨20, 20, 0⟩ / 1000) := rfl
  have hL2 : (run_simulation allocate_default [(⟨10, 10, 0⟩ : SimRow)]).energy_saved_kwh
      = ((0 : ℚ) + original_power_interval ⟨10, 10, 0⟩ / 1000) -
          ((0 : ℚ) + optimized_power_interval allocate_default ⟨10, 10, 0⟩ / 1000) := rfl
  rw [hL1] at h1
  rw [hL2] at h2
  simp only [optimized_power_interval, ha1, ha2, if_pos, spec_energy_saved_interval,
    spec_optimized_usage, original_power_interval,
    POWER_CPU_WATT_PER_PERCENT, POWER_GPU_WATT_PER_PERCENT] at h1 h2
  rcases le_or_lt (20 - td) 0 with hle | hlt
  · rw [max_eq_left hle] at h1
    norm_num at h1
  · rw [max_eq_right hlt.le] at h1
    have htd : td = 12 := by
      field_simp at h1
      linarith
    have hd : (10 : ℚ) - td ≤ 0 := by rw [htd]; norm_num
    rw [max_eq_left hd] at h2
    norm_num at h2

/-- C9 amended: `energy_saved_kwh` is the sum over intervals of 40% of the
interval's original energy when the action is SCALE_DOWN and 0 otherwise; it
is not computed per resource from usage deltas. -/
theorem energy_saved_kwh_eq (alloc : ℚ → ℚ → AllocAction) (rows : List SimRow) :
    (run_simulation alloc rows).energy_saved_kwh =
      (rows.map fun r =>
        if cpu_action alloc r = AllocAction.SCALE_DOWN then
          2 / 5 * (original_power_interval r / 1000)
        else 0).sum := by
  have h := foldl_simStep_fields alloc rows ⟨0, 0, 0, 0⟩
  have hE : (run_simulation alloc rows).energy_saved_kwh
      = (runTotals alloc rows).total_original_kwh -
          (runTotals alloc rows).total_optimized_kwh := rfl
  rw [hE, runTotals, h.2.2.1, h.2.2.2]
  simp only [zero_add]
  rw [← sum_map_sub]
  have hfun : (fun r => original_power_interval r / 1000 -
        optimized_power_interval alloc r / 1000)
      = fun r : SimRow =>
          if cpu_action alloc r = AllocAction.SCALE_DOWN then
            2 / 5 * (original_power_interval r / 1000)
          else 0 := by
    funext r
    rw [optimized_power_interval.eq_def]
    split_ifs
    · ring
    · ring
  rw [hfun]

/-- C10: for any allocation logic and any series whose observed usages are
nonnegative (usage values are percentages), the summary's pre-rounding cost
savings and energy savings are both nonnegative: SCALE_DOWN halves the
interval cost and removes 40% of the interval energy, while MAINTAIN and
SCALE_UP leave both unchanged, so no interval can push either total below
zero. -/
theorem savings_and_energy_nonneg (alloc : ℚ → ℚ → AllocAction) (rows : List SimRow)
    (h : ∀ r ∈ rows, 0 ≤ r.cpu_usage ∧ 0 ≤ r.gpu_usage) :
    0 ≤ (run_simulation alloc rows).cost_savings ∧
      0 ≤ (run_simulation alloc rows).energy_saved_kwh := by
  have hf := foldl_simStep_fields alloc rows ⟨0, 0, 0, 0⟩
  constructor
  · have hC : (run_simulation alloc rows).cost_savings
        = (runTotals alloc rows).total_original_cost -
            (runTotals alloc rows).total_optimized_cost := rfl
    rw [hC, runTotals, hf.1, hf.2.1]
    simp only [zero_add]
    rw [← sum_map_sub]
    apply List.sum_nonneg
    intro x hx
    obtain ⟨r, hr, rfl⟩ := List.mem_map.1 hx
    rw [optimized_cost_interval.eq_def]
    split_ifs
    · norm_num [original_cost_interval, COST_CPU_PER_HOUR, COST_GPU_PER_HOUR]
    · norm_num
  · have hE : (run_simulation alloc rows).energy_saved_kwh
        = (runTotals alloc rows).total_original_kwh -
            (runTotals alloc rows).total_optimized_kwh := rfl
    rw [hE, runTotals, hf.2.2.1, hf.2.2.2]
    simp only [zero_add]
    rw [← sum_map_sub]
    apply List.sum_nonneg
    intro x hx
    obtain ⟨r, hr, rfl⟩ := List.mem_map.1 hx
    have hp : 0 ≤ original_power_interval r := by
      have hu := h r hr
      rw [original_power_interval.eq_def, POWER_CPU_WATT_PER_PERCENT, POWER_GPU_WATT_PER_PERCENT]
      nlinarith [hu.1, hu.2]
    rw [optimized_power_interval.eq_def]
    split_ifs
    · linarith
    · linarith

/-- Witness for C10: on a concrete one-interval run with nonnegative usages,
both savings are nonnegative. -/
theorem savings_and_energy_nonneg_witness :
    0 ≤ (run_simulation allocate_default [⟨25, 10, 20⟩]).cost_savings ∧
      0 ≤ (run_simulation allocate_default [⟨25, 10, 20⟩]).energy_saved_kwh :=
  savings_and_energy_nonneg allocate_default [⟨25, 10, 20⟩] (by decide)

/-! ## Feature engineering (src/optimizer/feature_engineer.py)

`create_rolling_features` adds, for each requested column and window size, a
column `col_rolling_mean_window` holding
`df[col].rolling(window=window, min_periods=1).mean()`. One column/window
iteration is embedded: with `min_periods=1`, the pandas rolling mean at row
`i` averages the values from `max(0, i+1-window)` through `i` inclusive. -/

/-- The trailing slice the rolling mean reads at index `i`: the elements of
`xs` at positions `max(0, i+1-window)` through `i` inclusive. -/
def rollingWindow (xs : List ℚ) (window i : ℕ) : List ℚ :=
  (xs.take (i + 1)).drop (i + 1 - window)

/-- The value of `df[col].rolling(window=window, min_periods=1).mean()` at
row `i`: the arithmetic mean over the trailing slice. -/
def rolling_mean (xs : List ℚ) (window i : ℕ) : ℚ :=
  (rollingWindow xs window i).sum / (rollingWindow xs window i).length

/-- The rolling-mean feature column produced for one source column `xs` and
one window size: one value per row of the input. -/
def create_rolling_features (xs : List ℚ) (window : ℕ) : List ℚ :=
  (List.range xs.length).map (rolling_mean xs window)

/-- C5: for every series, window size `W ≥ 1` and valid index `i`, the trailing
slice holds exactly `min W (i+1)` values and the rolling-mean feature at `i`
is the arithmetic mean of the last `min W (i+1)` values of the series ending
at and including index `i`. -/
theorem create_rolling_features_spec (xs : List ℚ) (W i : ℕ) (hW : 1 ≤ W)
    (hi : i < xs.length) :
    (rollingWindow xs W i).length = min W (i + 1) ∧
      (create_rolling_features xs W)[i]? =
        some (((xs.take (i + 1)).drop ((i + 1) - min W (i + 1))).sum /
          ((min W (i + 1) : ℕ) : ℚ)) := by
  have hlen : (xs.take (i + 1)).length = i + 1 := by
    rw [List.length_take]
    omega
  have hwlen : (rollingWindow xs W i).length = min W (i + 1) := by
    rw [rollingWindow, List.length_drop, hlen]
    omega
  refine ⟨hwlen, ?_⟩
  have hdrop : (i + 1) - min W (i + 1) = (i + 1) - W := by omega
  rw [hdrop, create_rolling_features, List.getElem?_map]
  rw [List.getElem?_range hi]
  rw [Option.map_some']
  rw [rolling_mean, hwlen]
  rfl

/-- Witness for C5: on the series `[1, 2, 4]` with window 2 at index 2, the
slice is the last two values `[2, 4]` and the feature is their mean 3. -/
theorem create_rolling_features_spec_witness :
    (rollingWindow [(1 : ℚ), 2, 4] 2 2).length = min 2 3 ∧
      (create_rolling_features [(1 : ℚ), 2, 4] 2)[2]? =
        some ((([(1 : ℚ), 2, 4].take 3).drop (3 - min 2 3)).sum / ((min 2 3 : ℕ) : ℚ)) :=
  create_rolling_features_spec [1, 2, 4] 2 2 (by decide) (by decide)

/-- C6: the rolling mean with window size 1 is the identity on the series, so
feeding the feature builder's window-1 output back through itself returns the
original series. -/
theorem rolling_window_one_identity (xs : List ℚ) :
    create_rolling_features xs 1 = xs ∧
      create_rolling_features (create_rolling_features xs 1) 1 = xs := by
  have key : ∀ ys : List ℚ, create_rolling_features ys 1 = ys := by
    intro ys
    apply List.ext_getElem
    · simp [create_rolling_features]
    · intro i h1 h2
      simp only [create_rolling_features, List.getElem_map, List.getElem_range]
      have hwin : rollingWindow ys 1 i = [ys[i]] := by
        rw [rollingWindow, Nat.add_sub_cancel, List.drop_take]
        have h11 : i + 1 - i = 1 := by omega
        rw [h11]
        exact List.take_one_drop_eq_of_lt_length h2
      rw [rolling_mean, hwin]
      simp
  exact ⟨key xs, by rw [key xs]; exact key xs⟩

/-! ## Usage predictor (src/optimizer/model.py)

`UsagePredictor.__init__` sets `self.features = []`; `train(df, features,
target)` stores the feature list and target name and fits the wrapped
RandomForestRegressor; `predict(df)` first raises `RuntimeError("Model has
not been trained yet. ...")` when `self.features` is empty (the freshly
constructed state), then selects `df[self.features]` (a missing column is a
KeyError) and returns the regressor's output. The regression numerics are
floating-point machine learning and are not modelled; the error behaviour
the claims concern is. -/

/-- The errors `predict` can raise before reaching the regressor: the
untrained-model `RuntimeError`, or a KeyError from `df[self.features]`. -/
inductive PredictError where
  | untrained
  | missingColumn
deriving DecidableEq, Repr

/-- The predictor state the error behaviour depends on: the stored feature
column names and target name. -/
structure UsagePredictor where
  features : List String
  target : String
deriving DecidableEq, Repr

/-- `UsagePredictor()`: a fresh instance has an empty feature list. -/
def UsagePredictor.init : UsagePredictor :=
  { features := [], target := "" }

/-- `train(df, features, target)`: stores the feature list and target,
overwriting any previous training for this instance. -/
def UsagePredictor.train (m : UsagePredictor) (features : List String)
    (target : String) : UsagePredictor :=
  { m with features := features, target := target }

/-- `predict(df)` for a frame with columns `cols`: the untrained-model error
when the stored feature list is empty, a KeyError when a stored feature is
not among the frame's columns, otherwise success. -/
def UsagePredictor.predict (m : UsagePredictor) (cols : List String) :
    Except PredictError Unit :=
  if m.features.isEmpty then
    Except.error PredictError.untrained
  else if m.features.all fun f => cols.contains f then
    Except.ok ()
  else
    Except.error PredictError.missingColumn

/-- C7: `predict` on a freshly constructed `UsagePredictor` raises the
untrained-model error whatever frame it is given, while `train` with a
non-empty feature list followed by `predict` on the same feature columns used
for training succeeds — in particular it never raises that error. -/
theorem predict_untrained_behavior (fs : List String) (t : String) (h : fs ≠ []) :
    (∀ cols : List String, UsagePredictor.init.predict cols =
        Except.error PredictError.untrained) ∧
      (UsagePredictor.init.train fs t).predict fs = Except.ok () := by
  constructor
  · intro cols
    rfl
  · rw [UsagePredictor.predict]
    rw [if_neg, if_pos]
    · rw [List.all_eq_true]
      intro f hf
      simpa using List.elem_eq_true_of_mem hf
    · simp [UsagePredictor.train, List.isEmpty_iff, h]

/-- Witness for C7: training on the feature list `["hour"]` and predicting on
those same columns succeeds, while the fresh instance errors. -/
theorem predict_untrained_behavior_witness :
    (∀ cols : List String, UsagePredictor.init.predict cols =
        Except.error PredictError.untrained) ∧
      (UsagePredictor.init.train ["hour"] "cpu_usage").predict ["hour"] = Except.ok () :=
  predict_untrained_behavior ["hour"] "cpu_usage" (by decide)
